import Mathlib

/-!
Verification of `diffusion_policy/real_world/rtde_interpolation_controller.py`
and `demo_real_robot.py` against the natural-language specification.

The controller is embedded shallowly: poses are lists of rationals, queue
entries mirror the shared-memory queue's fixed record layout, and the
control-loop body of `RTDEInterpolationController.run` is a recursive
function over a list of per-tick external inputs (the drained command batch,
whether the transport call raises, the angles read back, the wall clock).
Observable side effects (transport writes, sleeps, ring-buffer publishes,
setting the readiness event) are collected in a trace.
-/

namespace RTDE

/-- Poses and joint-angle vectors: 6 numeric components in the source
(`np.zeros((6,))`, `pose.shape == (6,)`). Values are rationals. -/
abbrev Pose := List ℚ

/-- Enum `Command` from rtde_interpolation_controller.py lines 18-21. -/
inductive Command
  | STOP
  | SERVOL
  | SCHEDULE_WAYPOINT
deriving Repr, DecidableEq

/-- Numeric `.value` of the Python enum members. -/
def Command.value : Command → Nat
  | .STOP => 0
  | .SERVOL => 1
  | .SCHEDULE_WAYPOINT => 2

/-- One entry of the shared-memory input queue. The queue is created from an
example record with keys `cmd`, `target_pose`, `duration`, `target_time`
(lines 99-109), so every slot carries all four fields; a producer that sets
only some of them leaves the others at the slot default (zeros). -/
structure Message where
  cmd : Nat
  target_pose : Pose := [0, 0, 0, 0, 0, 0]
  duration : ℚ := 0
  target_time : ℚ := 0
deriving Repr, DecidableEq

/-- Observable side effects of the control process, in program order. -/
inductive Effect
  | writeAngles (pose : Pose) (speed : Nat)
  | sleepFor (d : ℚ)
  | publish (state : Pose) (timestamp : ℚ)
  | setReady
deriving Repr, DecidableEq

/-- External inputs consumed by one iteration of the `while keep_running`
loop: the batch returned by `input_queue.get_all()` (an empty list models the
`Empty` exception raised when nothing is queued — the import on line 13 and
the commented handler on lines 322-323 fix that behaviour; the queue itself
lives outside src/), whether `elephant_client.write_angles` raises on this
tick, and the values read back from the robot for the state snapshot. -/
structure TickInput where
  batch : List Message
  transportErr : Bool
  angles : Pose
  now : ℚ
deriving Repr, DecidableEq

/-- Constructor arguments of `RTDEInterpolationController` that the run loop
reads (lines 30-48, with the source defaults). -/
structure Config where
  frequency : ℚ := 125
  launch_timeout : ℚ := 3
  joints_init : Option Pose := none
  verbose : Bool := false
deriving Repr, DecidableEq

/-- Result of running the loop body on a finite prefix of tick inputs. -/
inductive LoopOutcome
  | running (target_pose : Pose)
  | transportExc
deriving Repr, DecidableEq

/-- Shallow embedding of the body of `while keep_running:` (lines 270-385).
Per tick: the inner `try` drains the queue and overwrites `target_pose` with
`command['target_pose'][0]` — the first drained entry's pose — swallowing any
exception (lines 271-281); then `write_angles(target_pose, 1000)` (line 303),
which if it raises escapes the loop to the outer handler; `time.sleep(1/125)`
(line 304); the state snapshot read and `ring_buffer.put` (lines 310-315);
and `ready_event.set()` on the first iteration (lines 382-383). The `cmd`
field of drained messages is never inspected and `keep_running` is never set
to False (the dispatch on lines 317-374 is commented out), so the loop only
ends by exception or by exhausting the supplied inputs. -/
def runLoop (target_pose : Pose) (iter_idx : Nat) :
    List TickInput → List Effect × LoopOutcome
  | [] => ([], .running target_pose)
  | inp :: rest =>
    let tp := match inp.batch with
      | [] => target_pose
      | m :: _ => m.target_pose
    if inp.transportErr then
      ([], .transportExc)
    else
      let tickEffects :=
        [Effect.writeAngles tp 1000, Effect.sleepFor (1/125),
         Effect.publish inp.angles inp.now]
        ++ (if iter_idx = 0 then [Effect.setReady] else [])
      let next := runLoop tp (iter_idx + 1) rest
      (tickEffects ++ next.1, next.2)

/-- How the `run` method of the control process finishes. -/
inductive RunOutcome
  | running
  | normalExit
  | nameErrRaised
deriving Repr, DecidableEq

/-- Shallow embedding of `RTDEInterpolationController.run` (lines 225-404).
The whole body sits in `try ... except Exception ... finally`. With
`verbose=True` the very first statement (line 237) references the name
`robot_ip`, whose binding on line 232 is commented out, so a `NameError` is
raised before the loop, caught on line 390; the `finally` block sets the
readiness event (line 401) and then the verbose print on line 404 raises the
same `NameError`, which escapes `run`. Otherwise: the optional
`write_angles(joints_init, 1000)` (lines 251-253), the initial
`target_pose = get_angles()` (line 257, passed in as `initialAngles`), and
the loop. An exception escaping the loop is caught and printed (line 391),
then `finally` sets the readiness event and `run` returns normally. -/
def run (cfg : Config) (initialAngles : Pose) (inputs : List TickInput) :
    List Effect × RunOutcome :=
  if cfg.verbose then
    ([Effect.setReady], RunOutcome.nameErrRaised)
  else
    let initEffects := match cfg.joints_init with
      | some js => [Effect.writeAngles js 1000]
      | none => []
    let loopResult := runLoop initialAngles 0 inputs
    match loopResult.2 with
    | .running _ => (initEffects ++ loopResult.1, RunOutcome.running)
    | .transportExc =>
        (initEffects ++ loopResult.1 ++ [Effect.setReady],
         RunOutcome.normalExit)

/-- Python exceptions that the handle-side methods can raise. -/
inductive PyErr
  | AssertionError
  | Empty
  | NameError
deriving Repr, DecidableEq

/-- The queue record enqueued by `servoL` (lines 190-195): `cmd`,
`target_pose` and `duration` are set, `target_time` stays at the slot
default. -/
def servoMessage (pose : Pose) (duration : ℚ) : Message :=
  { cmd := Command.SERVOL.value, target_pose := pose, duration := duration }

/-- The queue record enqueued by `schedule_waypoint` (lines 202-207). -/
def waypointMessage (pose : Pose) (target_time : ℚ) : Message :=
  { cmd := Command.SCHEDULE_WAYPOINT.value, target_pose := pose,
    target_time := target_time }

/-- The queue record enqueued by `stop` (lines 153-155): only `cmd` is set. -/
def stopMessage : Message :=
  { cmd := Command.STOP.value }

/-- Shallow embedding of `servoL` (lines 181-195): `assert self.is_alive()`,
`assert duration >= 1/self.frequency`, `assert pose.shape == (6,)`, then
`input_queue.put(message)`. A failed assert raises before anything is
enqueued; on success exactly the servo record is appended to the queue. -/
def servoL (frequency : ℚ) (alive : Bool) (pose : Pose) (duration : ℚ)
    (queue : List Message) : Except PyErr (List Message) :=
  if alive = false then .error .AssertionError
  else if ¬ (1 / frequency ≤ duration) then .error .AssertionError
  else if pose.length ≠ 6 then .error .AssertionError
  else .ok (queue ++ [servoMessage pose duration])

/-- Shallow embedding of `schedule_waypoint` (lines 197-207):
`assert target_time > time.time()`, `assert pose.shape == (6,)`, then
`input_queue.put(message)`. -/
def schedule_waypoint (now : ℚ) (pose : Pose) (target_time : ℚ)
    (queue : List Message) : Except PyErr (List Message) :=
  if ¬ (now < target_time) then .error .AssertionError
  else if pose.length ≠ 6 then .error .AssertionError
  else .ok (queue ++ [waypointMessage pose target_time])

/-- Shallow embedding of `stop` with `wait=False` (lines 152-156): enqueue a
STOP record. The `wait=True` path additionally calls `stop_wait`, i.e.
`self.join()`, which returns only when the control process exits. -/
def stop (queue : List Message) : List Message :=
  queue ++ [stopMessage]

/-- Shallow embedding of `start_wait` (lines 160-163):
`self.ready_event.wait(self.launch_timeout)` returns once the readiness
event is signaled or the timeout elapses (whichever first), and then
`assert self.is_alive()` runs. `signaled` records whether the event was set
by the time the wait returned; `alive` records whether the control process
was still alive at the assert. The assert reads only `alive`. -/
def start_wait (signaled alive : Bool) : Except PyErr Unit :=
  if alive then .ok () else .error .AssertionError

/-- Observable steps of the `__init__` constructor, which executes in the
orchestrator's process before `start` is ever called. -/
inductive InitStep
  | createInputQueue (capacity : Nat)
  | newElephantClient (ip : String) (port : Nat)
  | startClient
  | exitProcess (code : Nat)
  | readAngles
  | createRingBuffer
  | createReadyEvent
deriving Repr, DecidableEq

/-- Shallow embedding of `__init__` (lines 30-142): builds the input queue
(capacity 256, lines 105-109), constructs `ElephantRobot(robot_ip, 5001)` and
calls `start_client()` (lines 117-120); if that raises, the handler prints
and calls `exit(1)` (lines 121-123), terminating the whole calling process —
no error value ever reaches the caller. Otherwise it reads the angles for
the ring-buffer example, builds the ring buffer and the readiness event
(lines 124-138). The second component is true iff the object was
constructed. -/
def controllerInit (robot_ip : String) (startClientFails : Bool) :
    List InitStep × Bool :=
  let steps := [InitStep.createInputQueue 256,
                InitStep.newElephantClient robot_ip 5001,
                InitStep.startClient]
  if startClientFails then
    (steps ++ [InitStep.exitProcess 1], false)
  else
    (steps ++ [InitStep.readAngles, InitStep.createRingBuffer,
               InitStep.createReadyEvent], true)

/-- Modelled from the spec (sections 4.1 and 4.4): the pose a tick would
dispatch if the drained ServoL command were folded into the trajectory
interpolator and the interpolator were evaluated at the tick's target time,
`dt` seconds into a segment that reaches `target` `duration` seconds after
issuance — linear interpolation from `start` toward `target`. Used only to
compare the spec-described dispatch with the pose the code actually sends. -/
def specInterpolatedDispatch (start target : Pose) (duration dt : ℚ) : Pose :=
  List.zipWith (fun s t => s + dt / duration * (t - s)) start target

/-! Concrete fixtures used by counterexamples and witnesses. -/

/-- All-zero pose. -/
def p0 : Pose := [0, 0, 0, 0, 0, 0]

/-- A nonzero target pose. -/
def p1 : Pose := [1, 1, 1, 1, 1, 1]

/-- An angles reading distinct from both poses. -/
def a0 : Pose := [2, 2, 2, 2, 2, 2]

/-- Default configuration (frequency 125, not verbose). -/
def cfg0 : Config := {}

/-- Configuration with frequency 10 Hz (the demo script's default). -/
def cfg10 : Config := { frequency := 10 }

/-- Configuration with `verbose=True`. -/
def cfgV : Config := { verbose := true }

/-- A tick whose drain returns one ServoL command for `p1`, duration 1 s. -/
def servoTick : TickInput :=
  { batch := [servoMessage p1 1], transportErr := false, angles := a0,
    now := 100 }

/-- A tick whose drain finds the queue empty (`Empty` raised). -/
def emptyTick : TickInput :=
  { batch := [], transportErr := false, angles := a0, now := 101 }

/-- A tick on which `write_angles` raises. -/
def errTick : TickInput :=
  { batch := [], transportErr := true, angles := a0, now := 102 }

/-- A tick whose drain returns exactly one STOP command. -/
def stopTick : TickInput :=
  { batch := [stopMessage], transportErr := false, angles := a0, now := 103 }

/-- A tick whose drain returns the batch produced by calling `stop` twice. -/
def doubleStopTick : TickInput :=
  { batch := stop (stop []), transportErr := false, angles := a0, now := 104 }

/-! Claim C1. -/

/-- C1 fails on the code: with one drained ServoL command (target `p1`,
duration 1 s), the pose dispatched on that tick is the raw command pose `p1`
itself, which differs from the pose the spec's interpolator would yield at
the tick's target time (1/125 s into a 1 s segment starting from `p0`). -/
theorem C1_dispatch_is_raw_counterexample :
    (run cfg0 p0 [servoTick]).1.head? = some (Effect.writeAngles p1 1000) ∧
    p1 ≠ specInterpolatedDispatch p0 p1 1 (1/125) := by
  refine ⟨rfl, ?_⟩
  have hs : specInterpolatedDispatch p0 p1 1 (1/125) =
      [1/125, 1/125, 1/125, 1/125, 1/125, 1/125] := by
    norm_num [specInterpolatedDispatch, p0, p1]
  rw [hs]
  norm_num [p1]

/-- C1 amended: on every tick whose transport call does not raise, the pose
dispatched to the actuator transport is the raw target pose — the first
drained command's `target_pose` when the drain returned a batch, the
previous target otherwise — never an interpolated pose; no trajectory
interpolator is ever constructed or evaluated. -/
theorem C1_raw_passthrough (tp : Pose) (idx : Nat) (inp : TickInput)
    (rest : List TickInput) (h : inp.transportErr = false) :
    (runLoop tp idx (inp :: rest)).1.head? =
      some (Effect.writeAngles
        (match inp.batch with | [] => tp | m :: _ => m.target_pose) 1000) := by
  cases inp with
  | mk batch terr angles now =>
    cases batch <;> simp_all [runLoop]

/-- C1 witness: the pass-through law evaluated on the concrete ServoL
tick. -/
theorem C1_raw_passthrough_witness :
    servoTick.transportErr = false ∧
    (runLoop p0 0 [servoTick]).1.head? =
      some (Effect.writeAngles p1 1000) :=
  ⟨rfl, C1_raw_passthrough p0 0 servoTick [] rfl⟩

/-! Claim C2. -/

/-- C2 names the intended behaviour but the code drops it: with a drained
batch containing exactly one STOP command followed by one further tick of
input, the loop dispatches again on the later tick and is still running
afterwards — the command dispatch (lines 317-374) is commented out, `cmd` is
never inspected, `keep_running` is never cleared, and the Stop never
transitions the loop to Stopping. (The first tick even dispatches the STOP
record's default pose, the zero vector, since only `target_pose` is read.) -/
theorem C2_stop_ignored :
    run cfg0 p0 [stopTick, emptyTick] =
      ([Effect.writeAngles [0, 0, 0, 0, 0, 0] 1000, Effect.sleepFor (1/125),
        Effect.publish a0 103, Effect.setReady,
        Effect.writeAngles [0, 0, 0, 0, 0, 0] 1000, Effect.sleepFor (1/125),
        Effect.publish a0 101],
       RunOutcome.running) := by
  rfl

/-! Claim C3. -/

/-- C3 fails on the code: with the demo's 10 Hz configuration the tick still
sleeps the hard-coded relative 1/125 s (line 304); `dt = 1/frequency` (line
256) is never used for the wait, so the per-tick sleep does not depend on
the configured frequency and no absolute tick deadline is computed. -/
theorem C3_fixed_sleep_counterexample :
    Effect.sleepFor (1/125) ∈ (run cfg10 p0 [emptyTick]).1 ∧
    Effect.sleepFor (1/cfg10.frequency) ∉ (run cfg10 p0 [emptyTick]).1 := by
  have hr : (run cfg10 p0 [emptyTick]).1 =
      [Effect.writeAngles p0 1000, Effect.sleepFor (1/125),
       Effect.publish a0 101, Effect.setReady] := rfl
  constructor
  · rw [hr]
    simp
  · rw [hr]
    intro hmem
    simp [cfg10] at hmem

/-- C3 amended: every sleep the loop performs is the fixed relative
1/125-second sleep, whatever the configured frequency and inputs; tick
boundaries are never computed from a monotonic start plus `i * dt`. -/
theorem C3_sleep_constant (tp : Pose) (idx : Nat) (inputs : List TickInput)
    (d : ℚ) (h : Effect.sleepFor d ∈ (runLoop tp idx inputs).1) :
    d = 1/125 := by
  induction inputs generalizing tp idx with
  | nil => simp [runLoop] at h
  | cons inp rest ih =>
    by_cases ht : inp.transportErr = true
    · simp [runLoop, ht] at h
    · simp only [Bool.not_eq_true] at ht
      simp only [runLoop, ht, Bool.false_eq_true, if_false, List.cons_append,
        List.mem_cons, List.mem_append] at h
      rcases h with h | h | h | h
      · exact absurd h (by simp)
      · exact (Effect.sleepFor.injEq _ _).mp h
      · exact absurd h (by simp)
      · rcases h with h | h
        · rcases Nat.decEq idx 0 with h0 | h0 <;> simp_all
        · exact ih _ _ h

/-- C3 witness: the constant-sleep law evaluated on a concrete tick. -/
theorem C3_sleep_constant_witness :
    Effect.sleepFor (1/125) ∈ (runLoop p0 0 [emptyTick]).1 ∧
    (1/125 : ℚ) = 1/125 := by
  have hmem : Effect.sleepFor (1/125) ∈ (runLoop p0 0 [emptyTick]).1 := by
    rw [show (runLoop p0 0 [emptyTick]).1 =
      [Effect.writeAngles p0 1000, Effect.sleepFor (1/125),
       Effect.publish a0 101, Effect.setReady] from rfl]
    simp
  exact ⟨hmem, C3_sleep_constant p0 0 [emptyTick] (1/125) hmem⟩

/-! Claim C4. -/

/-- C4 fails on the code: a single transport error terminates the loop.
`write_angles` sits outside the inner try (line 303), so its exception
escapes the while loop to the outer handler; with one failing tick and a
healthy tick queued after it, the run exits (cleanup ran, readiness was
signaled) and the second tick never executes. -/
theorem C4_single_error_terminates_counterexample :
    run cfg0 p0 [errTick, emptyTick] =
      ([Effect.setReady], RunOutcome.normalExit) := by
  rfl

/-- C4 amended: an error from the transport call is not retried — the first
tick whose transport call raises ends the loop immediately with no effect
from that tick or any later one; the outer handler catches the error, the
cleanup still signals readiness, and `run` returns normally. No
consecutive-failure threshold exists anywhere in the code. -/
theorem C4_transport_error_exits (cfg : Config) (tp init : Pose) (idx : Nat)
    (inp : TickInput) (rest : List TickInput)
    (hv : cfg.verbose = false) (ht : inp.transportErr = true) :
    runLoop tp idx (inp :: rest) = ([], LoopOutcome.transportExc) ∧
    (run cfg init (inp :: rest)).2 = RunOutcome.normalExit ∧
    Effect.setReady ∈ (run cfg init (inp :: rest)).1 := by
  have hL : ∀ tp2 idx2, runLoop tp2 idx2 (inp :: rest) =
      ([], LoopOutcome.transportExc) := by
    intro tp2 idx2
    simp [runLoop, ht]
  refine ⟨hL tp idx, ?_, ?_⟩ <;>
    simp [run, hv, hL init 0]

/-- C4 witness: the immediate-exit law evaluated on the failing tick. -/
theorem C4_transport_error_exits_witness :
    cfg0.verbose = false ∧ errTick.transportErr = true ∧
    (run cfg0 p0 [errTick]).2 = RunOutcome.normalExit :=
  ⟨rfl, rfl, (C4_transport_error_exits cfg0 p0 p0 0 errTick [] rfl rfl).2.1⟩

/-! Claim C5. -/

/-- C5: on every exit path of the control process — any run that is not
still inside the loop, including the verbose NameError path and a transport
failure — the `finally` cleanup has executed and the readiness event has
been signaled, so a launcher waiting on the readiness event is never left
hanging by a failed control process. -/
theorem C5_cleanup_signals_ready (cfg : Config) (init : Pose)
    (inputs : List TickInput)
    (h : (run cfg init inputs).2 ≠ RunOutcome.running) :
    Effect.setReady ∈ (run cfg init inputs).1 := by
  cases hv : cfg.verbose with
  | true => simp [run, hv]
  | false =>
    cases hL : (runLoop init 0 inputs).2 with
    | running tp =>
      exact absurd (by simp [run, hv, hL]) h
    | transportExc =>
      simp [run, hv, hL]

/-- C5 witness: the cleanup law evaluated on a run that dies to a transport
error on its first tick. -/
theorem C5_cleanup_signals_ready_witness :
    (run cfg0 p0 [errTick]).2 ≠ RunOutcome.running ∧
    Effect.setReady ∈ (run cfg0 p0 [errTick]).1 := by
  have h : (run cfg0 p0 [errTick]).2 ≠ RunOutcome.running := by
    rw [show (run cfg0 p0 [errTick]).2 = RunOutcome.normalExit from rfl]
    simp
  exact ⟨h, C5_cleanup_signals_ready cfg0 p0 [errTick] h⟩

/-! Claim C6. -/

/-- C6: `servoL` rejects, before anything is enqueued, every call whose
duration is below 1/frequency, and `schedule_waypoint` rejects every call
whose absolute target time is not strictly in the future; a successful call
enqueues exactly the stated command with its arguments unclamped, and only
successful calls enqueue. -/
theorem C6_command_validation (frequency : ℚ) (alive : Bool) (pose : Pose)
    (duration now target_time : ℚ) (queue : List Message) :
    (duration < 1 / frequency →
      servoL frequency alive pose duration queue =
        .error .AssertionError) ∧
    (target_time ≤ now →
      schedule_waypoint now pose target_time queue =
        .error .AssertionError) ∧
    (∀ q2, servoL frequency alive pose duration queue = .ok q2 →
      alive = true ∧ 1 / frequency ≤ duration ∧ pose.length = 6 ∧
      q2 = queue ++ [servoMessage pose duration]) ∧
    (∀ q2, schedule_waypoint now pose target_time queue = .ok q2 →
      now < target_time ∧ pose.length = 6 ∧
      q2 = queue ++ [waypointMessage pose target_time]) := by
  refine ⟨?_, ?_, ?_, ?_⟩
  · intro hd
    have hn : ¬ (1 / frequency ≤ duration) := not_le.mpr hd
    cases alive
    · rfl
    · unfold servoL
      rw [if_neg (by simp), if_pos hn]
  · intro ht
    have : ¬ (now < target_time) := not_lt.mpr ht
    simp [schedule_waypoint, this]
  · intro q2 hok
    unfold servoL at hok
    split at hok
    · exact absurd hok (by simp)
    · split at hok
      · exact absurd hok (by simp)
      · split at hok
        · exact absurd hok (by simp)
        · rename_i ha hd hp
          refine ⟨by simpa using ha, by simpa using hd, by simpa using hp, ?_⟩
          simpa using hok.symm
  · intro q2 hok
    unfold schedule_waypoint at hok
    split at hok
    · exact absurd hok (by simp)
    · split at hok
      · exact absurd hok (by simp)
      · rename_i ht hp
        refine ⟨by simpa using ht, by simpa using hp, ?_⟩
        simpa using hok.symm

/-- C6 witness: a too-short duration and a past target time are rejected
(via the theorem), while valid calls enqueue exactly one record. -/
theorem C6_command_validation_witness :
    servoL 125 true p1 (1/250) [] = .error .AssertionError ∧
    schedule_waypoint 100 p1 50 [] = .error .AssertionError ∧
    servoL 125 true p1 1 [] = .ok [servoMessage p1 1] ∧
    schedule_waypoint 100 p1 200 [] = .ok [waypointMessage p1 200] := by
  refine ⟨(C6_command_validation 125 true p1 (1/250) 100 50 []).1
            (by norm_num),
          (C6_command_validation 125 true p1 (1/250) 100 50 []).2.1
            (by norm_num), ?_, ?_⟩
  · rw [show servoL 125 true p1 1 [] = .ok [servoMessage p1 1] from by
      norm_num [servoL, p1]]
  · rw [show schedule_waypoint 100 p1 200 [] =
        .ok [waypointMessage p1 200] from by
      norm_num [schedule_waypoint, p1]]

/-! Claim C7. -/

/-- C7 fails on the code: the claimed failure condition — readiness not
signaled within the timeout AND the process no longer alive — is not what
`start_wait` implements. The `assert self.is_alive()` on line 163 fails
whenever the process is dead, even when the readiness event was signaled:
at signaled = true, alive = false the code raises while the claim predicts
success. -/
theorem C7_failure_condition_counterexample :
    ¬ (∀ signaled alive : Bool,
        start_wait signaled alive = .error .AssertionError ↔
          (signaled = false ∧ alive = false)) := by
  intro h
  have h2 := (h true false).mp rfl
  exact Bool.noConfusion h2.1

/-- C7 amended: after the wait on the readiness event (bounded by
`launch_timeout`), `start_wait` fails exactly when the control process is no
longer alive, regardless of whether the readiness event was signaled;
liveness alone decides success. -/
theorem C7_fails_iff_dead (signaled alive : Bool) :
    start_wait signaled alive = .error .AssertionError ↔ alive = false := by
  cases alive <;> simp [start_wait]

/-- C7 witness: the amended failure law evaluated at a signaled-but-dead
process. -/
theorem C7_fails_iff_dead_witness :
    start_wait true false = .error .AssertionError :=
  (C7_fails_iff_dead true false).mpr rfl

/-! Claim C8. -/

/-- C8 names the intended behaviour but the code drops it: calling `stop`
twice enqueues two STOP records without error, yet the loop that drains both
in one batch is still running after a further tick — `run` never inspects
`cmd`, so `keep_running` is never cleared, `join()` inside `stop_wait` never
returns, and the process never reaches Stopped at all (let alone exactly
once). -/
theorem C8_double_stop_never_stopped :
    stop (stop []) = [stopMessage, stopMessage] ∧
    (run cfg0 p0 [doubleStopTick, emptyTick]).2 = RunOutcome.running := by
  exact ⟨rfl, rfl⟩

/-! Claim C9. -/

/-- C9: the constructor itself opens the network client connection to the
robot — it constructs `ElephantRobot(robot_ip, 5001)` and calls
`start_client()` before `start` is ever invoked — and when that connection
attempt raises, it terminates the whole calling process with `exit(1)`
instead of raising a typed error: the object is never constructed and no
exception reaches the caller. -/
theorem C9_ctor_connects_or_exits (ip : String) (fails : Bool) :
    InitStep.newElephantClient ip 5001 ∈ (controllerInit ip fails).1 ∧
    InitStep.startClient ∈ (controllerInit ip fails).1 ∧
    (fails = true →
      controllerInit ip fails =
        ([InitStep.createInputQueue 256,
          InitStep.newElephantClient ip 5001,
          InitStep.startClient, InitStep.exitProcess 1], false)) := by
  cases fails <;> simp [controllerInit]

/-- C9 witness: a failing connection attempt at a concrete address ends in
`exit(1)` with no constructed object. -/
theorem C9_ctor_connects_or_exits_witness :
    controllerInit "10.0.0.1" true =
      ([InitStep.createInputQueue 256,
        InitStep.newElephantClient "10.0.0.1" 5001,
        InitStep.startClient, InitStep.exitProcess 1], false) :=
  (C9_ctor_connects_or_exits "10.0.0.1" true).2.2 rfl

/-! Claim C10. -/

/-- C10: with `verbose=True` the run body raises NameError on the undefined
name `robot_ip` (line 237, its binding on line 232 being commented out)
before the loop is ever entered — no tick executes, nothing is dispatched
and no state snapshot is published — and after the caught error the
`finally` block sets the readiness event and its own verbose print (line
404) raises the same NameError, which escapes `run`. -/
theorem C10_verbose_name_error (cfg : Config) (init : Pose)
    (inputs : List TickInput) (h : cfg.verbose = true) :
    run cfg init inputs = ([Effect.setReady], RunOutcome.nameErrRaised) := by
  simp [run, h]

/-- C10 witness: the NameError law evaluated on the verbose
configuration. -/
theorem C10_verbose_name_error_witness :
    cfgV.verbose = true ∧
    run cfgV p0 [emptyTick] = ([Effect.setReady], RunOutcome.nameErrRaised) :=
  ⟨rfl, C10_verbose_name_error cfgV p0 [emptyTick] rfl⟩

end RTDE
